import Mathlib

/-!
Verification development for the B-Scanner repository (src/main.py).

The embedding below is a shallow, functional translation of the
`BarcodeScanner` and `ScannerWidget` classes.  External libraries
(OpenCV, pyzbar, Qt) are modelled at their call boundary:

* `cv2.flip(frame, 1)` is a horizontal mirror (each pixel row reversed);
* `cv2.resize(frame, (w, h))` produces a frame of exactly the requested
  dimensions, resampling the source deterministically (nearest neighbour);
* `cv2.VideoCapture` handles are collected in a system pool `Sys`, so
  handles that the Python code drops without releasing remain visible;
* detector back-ends (`cv2.barcode_BarcodeDetector.detectAndDecode`,
  `pyzbar.decode`) are fields of a `DetectorEnv`; a call that raises is an
  `Except.error`;
* cross-thread `pyqtSignal` emissions are modelled by appending to the
  emitting object's log (`errors`, `emitted`), and the Qt queued-connection
  conduit itself by the `Channel` type below;
* Python's substring test `a in b` on strings is `pyContains`.
-/

namespace BScanner

/-- A decoded symbol as built in `process_frame`: payload text plus
polygon geometry. -/
structure DecodedSymbol where
  data : String
  polygon : List (Int × Int)
deriving Repr, DecidableEq

/-- The two detector back-ends selectable in the UI combo box. -/
inductive Backend
  | opencv
  | pyzbar
deriving Repr, DecidableEq

/-- Backend name as it appears in the combo box and result lines. -/
def backendName : Backend → String
  | .opencv => "opencv"
  | .pyzbar => "pyzbar"

/-- A video frame: dimensions plus pixel rows (interleaved colour values
abstracted to naturals). -/
structure Frame where
  width : Nat
  height : Nat
  rows : List (List Nat)
deriving Repr, DecidableEq

/-- Model of `cv2.flip(frame, 1)`: horizontal mirror, dimensions kept. -/
def cvFlip (f : Frame) : Frame :=
  { f with rows := f.rows.map List.reverse }

/-- Model of `cv2.resize(frame, (w, h))`: the result has exactly the
requested dimensions; content is a deterministic resampling (nearest
neighbour) of the source. -/
def cvResize (f : Frame) (w h : Nat) : Frame :=
  { width := w
    height := h
    rows := (List.range h).map (fun i =>
      let row := f.rows.getD (i * f.height / h) []
      (List.range w).map (fun j => row.getD (j * f.width / w) 0)) }

/-- Raw result of `cv2.barcode_BarcodeDetector.detectAndDecode`:
`(retval, info, corners)` (the third component of the Python tuple is
discarded by the caller). -/
structure OpencvResult where
  retval : Bool
  info : List String
  corners : List (List (Int × Int))
deriving Repr, DecidableEq

/-- A record returned by `pyzbar.decode`: decoded data plus polygon. -/
structure PyzbarSymbol where
  data : String
  polygon : List (Int × Int)
deriving Repr, DecidableEq

/-- The external detector libraries, at their call boundary.  A call that
raises an exception is an `Except.error` carrying the message. -/
structure DetectorEnv where
  opencvDetect : Frame → Except String OpencvResult
  pyzbarDecode : Frame → Except String (List PyzbarSymbol)

/-- Embedding of `BarcodeScanner.process_frame`.  Returns the (mirrored)
frame, the decoded symbol list, and the error message emitted through
`error_occurred` if the detector call raised.  The `try`/`except` of the
source is the `Except` match: on `error` the function still returns the
mirrored frame paired with `[]`. -/
def process_frame (env : DetectorEnv) (backend : Backend) (frame : Frame) :
    Frame × List DecodedSymbol × Option String :=
  let frame := cvFlip frame
  match backend with
  | .opencv =>
    match env.opencvDetect frame with
    | .ok r =>
      let decoded : List DecodedSymbol :=
        if r.retval then
          ((r.info.zip r.corners).filter (fun p => p.1 ≠ "")).map
            (fun p => { data := p.1, polygon := p.2 })
        else []
      (frame, decoded, none)
    | .error e => (frame, [], some ("Processing error: " ++ e))
  | .pyzbar =>
    match env.pyzbarDecode frame with
    | .ok bs =>
      (frame, bs.map (fun b => { data := b.data, polygon := b.polygon }), none)
    | .error e => (frame, [], some ("Processing error: " ++ e))

/-- Whether the detector call made by `process_frame` on the (already
mirrored) frame raises, and with which message. -/
def detectorRaises (env : DetectorEnv) (backend : Backend) (frame : Frame) :
    Option String :=
  match backend with
  | .opencv =>
    match env.opencvDetect frame with
    | .ok _ => none
    | .error e => some e
  | .pyzbar =>
    match env.pyzbarDecode frame with
    | .ok _ => none
    | .error e => some e

/-- A `cv2.VideoCapture` handle: requested device index, whether the
device opened, and the capture properties set on it. -/
structure CapHandle where
  index : Nat
  opened : Bool
  reqWidth : Option Nat := none
  reqHeight : Option Nat := none
deriving Repr, DecidableEq

/-- The pool of every `VideoCapture` object ever constructed, in creation
order.  Handles the Python code drops without calling `release()` stay
here with `opened = true`. -/
structure Sys where
  handles : List CapHandle
deriving Repr, DecidableEq

/-- Number of device handles currently open. -/
def openCount (sys : Sys) : Nat :=
  (sys.handles.filter (fun h => h.opened)).length

/-- State of one `BarcodeScanner` object.  `cap` is the index into
`Sys.handles` of the handle currently referenced by `self.cap`;
`errors` and `emitted` log the `error_occurred` and `frame_processed`
signal emissions in order. -/
structure ScannerState where
  backend : Backend
  active : Bool
  cap : Option Nat
  timerRunning : Bool
  errors : List String
  emitted : List (Frame × List DecodedSymbol)
deriving Repr, DecidableEq

/-- `BarcodeScanner.__init__`: detector selected by `backend`, inactive,
no capture, timer not started. -/
def initScanner (b : Backend) : ScannerState :=
  { backend := b, active := false, cap := none, timerRunning := false
    errors := [], emitted := [] }

/-- Default handle used for out-of-range lookups (never reachable from
the operations below). -/
def defaultHandle : CapHandle := { index := 0, opened := false }

/-- Whether `self.cap.isOpened()` holds. -/
def capOpened (sys : Sys) (s : ScannerState) : Bool :=
  match s.cap with
  | none => false
  | some i => (sys.handles.getD i defaultHandle).opened

/-- Embedding of `BarcodeScanner.start_capture`.  A new `VideoCapture`
is constructed unconditionally and assigned to `self.cap` (the previous
handle is dropped without release).  If it opened, the 1280x720 capture
properties are set, `active` is set and the timer started, returning
`True`; otherwise the `IOError` is caught, a `Camera error` message is
emitted and `False` returned (`active` and the timer untouched).
`avail i` says whether the device at index `i` can be opened. -/
def start_capture (avail : Nat → Bool) (sys : Sys) (s : ScannerState)
    (camera_index : Nat := 0) : Sys × ScannerState × Bool :=
  let opened := avail camera_index
  let capIdx := sys.handles.length
  if opened then
    ({ handles := sys.handles ++
        [{ index := camera_index, opened := true
           reqWidth := some 1280, reqHeight := some 720 }] },
     { s with cap := some capIdx, active := true, timerRunning := true },
     true)
  else
    ({ handles := sys.handles ++ [{ index := camera_index, opened := false }] },
     { s with cap := some capIdx
              errors := s.errors ++ ["Camera error: Camera not accessible"] },
     false)

/-- Embedding of `BarcodeScanner.stop_capture`: clear `active`, stop the
timer, and release the current handle if it is open. -/
def stop_capture (sys : Sys) (s : ScannerState) : Sys × ScannerState :=
  let s1 := { s with active := false, timerRunning := false }
  match s1.cap with
  | none => (sys, s1)
  | some i =>
    let h := sys.handles.getD i defaultHandle
    if h.opened then
      ({ handles := sys.handles.set i { h with opened := false } }, s1)
    else (sys, s1)

/-- Embedding of `BarcodeScanner.process_next_frame`, one timer tick.
`readResult` is what `self.cap.read()` returned this tick (`none` for
`ret == False`).  If inactive or the capture is not open, or the read
failed, the tick returns with no state change; otherwise the frame is
resized to 640x480, decoded by `process_frame`, and the result emitted
through `frame_processed` (the `QImage` conversion keeps the pixel
content, so the emitted frame is the processed frame itself). -/
def process_next_frame (env : DetectorEnv) (sys : Sys) (s : ScannerState)
    (readResult : Option Frame) : ScannerState :=
  if !s.active || !capOpened sys s then s
  else
    match readResult with
    | none => s
    | some frame =>
      let frame := cvResize frame 640 480
      let r := process_frame env s.backend frame
      let s1 :=
        match r.2.2 with
        | some e => { s with errors := s.errors ++ [e] }
        | none => s
      { s1 with emitted := s1.emitted ++ [(r.1, r.2.1)] }

/-- Python's substring test `needle in hay` on strings. -/
def pyContains (hay needle : String) : Bool :=
  decide (needle.data <:+: hay.data)

/-- Model of `QTextEdit.append` at the plain-text level: appends `line`
as a new paragraph. -/
def appendText (text line : String) : String :=
  if text = "" then line else text ++ "\n" ++ line

/-- The line `update_display` appends for a newly detected payload. -/
def detectedLine (b : Backend) (data : String) : String :=
  "Detected [" ++ backendName b ++ "]: " ++ data

/-- One iteration of the `for result in results` loop of
`ScannerWidget.update_display`, instrumented: the accumulator carries the
payloads reported so far next to the plain text of the results box.  The
source tests `result['data'] not in self.results.toPlainText()` and, when
it holds, appends the formatted detection line. -/
def dedupStep (b : Backend) (acc : List String × String) (r : DecodedSymbol) :
    List String × String :=
  if pyContains acc.2 r.data then acc
  else (acc.1 ++ [r.data], appendText acc.2 (detectedLine b r.data))

/-- The result-reporting loop of `ScannerWidget.update_display`: from the
current plain text, returns the payloads reported by this call and the
new plain text. -/
def update_display_run (b : Backend) (text : String)
    (results : List DecodedSymbol) : List String × String :=
  results.foldl (dedupStep b) ([], text)

/-- State of the `ScannerWidget` relevant to the core: active backend
selection, plain text of the results box, and the current scanner. -/
structure WidgetState where
  current_backend : Backend
  resultsText : String
  scanner : ScannerState
deriving Repr, DecidableEq

/-- Embedding of `ScannerWidget.update_display` (the pixmap rendering is
out of scope): run the dedup loop over `results` on the results text. -/
def update_display (w : WidgetState) (results : List DecodedSymbol) :
    WidgetState :=
  { w with resultsText :=
      (update_display_run w.current_backend w.resultsText results).2 }

/-- Embedding of `ScannerWidget.show_error`: append the error line to the
results box. -/
def show_error (w : WidgetState) (msg : String) : WidgetState :=
  { w with resultsText := appendText w.resultsText ("<Error> " ++ msg) }

/-- Embedding of `ScannerWidget.handle_error` (the slot connected to
`error_occurred`): show the message, then stop the capture. -/
def handle_error (sys : Sys) (w : WidgetState) (msg : String) :
    Sys × WidgetState :=
  let w1 := show_error w msg
  let r := stop_capture sys w1.scanner
  (r.1, { w1 with scanner := r.2 })

/-- Embedding of `ScannerWidget.setup_scanner`: construct a fresh
`BarcodeScanner` on the current backend, connect its signals, and start
its thread, whose `started` signal invokes `start_capture` with the
default camera index 0. -/
def setup_scanner (avail : Nat → Bool) (sys : Sys) (w : WidgetState) :
    Sys × WidgetState :=
  let sc := initScanner w.current_backend
  let r := start_capture avail sys sc 0
  (r.1, { w with scanner := r.2.1 })

/-- Embedding of `ScannerWidget.change_backend`: if the scanner is
active, stop its capture; record the new backend; then `setup_scanner`
builds and starts a replacement scanner.  The results box is untouched. -/
def change_backend (avail : Nat → Bool) (sys : Sys) (w : WidgetState)
    (backend : Backend) : Sys × WidgetState :=
  let p : Sys × WidgetState :=
    if w.scanner.active then
      let r := stop_capture sys w.scanner
      (r.1, { w with scanner := r.2 })
    else (sys, w)
  let w1 := { p.2 with current_backend := backend }
  setup_scanner avail p.1 w1

/-- Embedding of `ScannerWidget.scan_image` after the file dialog:
`img` is what `cv2.imread` produced (`none` when loading failed).  The
image is decoded synchronously by `self.scanner.process_frame`; an
`error_occurred` emission is handled synchronously by `handle_error`
(same-thread direct connection); then `update_display` runs on the
results. -/
def scan_image (env : DetectorEnv) (sys : Sys) (w : WidgetState)
    (img : Option Frame) : Sys × WidgetState :=
  match img with
  | none => (sys, show_error w "Failed to load image")
  | some frame =>
    let r := process_frame env w.scanner.backend frame
    let p : Sys × WidgetState :=
      match r.2.2 with
      | some e => handle_error sys w e
      | none => (sys, w)
    (p.1, update_display p.2 r.2.1)

/-- The Deduplicator exactly as the spec words it, for refinement
comparison with the code's `update_display_run`: a seen-set of payload
strings; a symbol passes the filter iff its payload is not in the set,
and passing payloads are inserted. -/
def specFilter (seen : List String) (symbols : List DecodedSymbol) :
    List DecodedSymbol × List String :=
  symbols.foldl
    (fun acc s =>
      if s.data ∈ acc.2 then acc else (acc.1 ++ [s], acc.2 ++ [s.data]))
    ([], seen)

/-- A message travelling from the worker to the consumer. -/
inductive ChannelMsg
  | frameMsg (frame : Frame) (symbols : List DecodedSymbol)
  | errorMsg (msg : String)
deriving Repr, DecidableEq

/-- Model of the cross-thread signal conduit the source builds with
`moveToThread` plus `frame_processed.connect` / `error_occurred.connect`:
a Qt queued connection posts one event per emission to the receiving
thread's event queue; `delivered` records the messages the consumer has
taken, in order. -/
structure Channel where
  pending : List ChannelMsg
  delivered : List ChannelMsg
deriving Repr, DecidableEq

/-- Emitting a signal posts the message at the back of the queue. -/
def Channel.emit (c : Channel) (m : ChannelMsg) : Channel :=
  { c with pending := c.pending ++ [m] }

/-- The consumer's event loop takes the oldest pending message. -/
def Channel.consume (c : Channel) : Channel × Option ChannelMsg :=
  match c.pending with
  | [] => (c, none)
  | m :: rest => ({ pending := rest, delivered := c.delivered ++ [m] }, some m)

/-- Consume `n` messages in a row. -/
def Channel.consumeN : Channel → Nat → Channel
  | c, 0 => c
  | c, n + 1 => Channel.consumeN (c.consume).1 n

/-- A whole session of `update_display` calls, instrumented: starting
from the given results-box text, fold every call's result batch through
the dedup loop, accumulating the reported payloads across calls. -/
def sessionRun (b : Backend) (text : String)
    (batches : List (List DecodedSymbol)) : List String × String :=
  batches.foldl (fun acc batch => batch.foldl (dedupStep b) acc) ([], text)

lemma pyContains_iff {hay needle : String} :
    pyContains hay needle = true ↔ needle.data <:+: hay.data := by
  simp [pyContains]

lemma pyContains_appendText (t l p : String)
    (h : pyContains t p = true) : pyContains (appendText t l) p = true := by
  rw [pyContains_iff] at h ⊢
  unfold appendText
  split
  · next ht =>
    subst ht
    have hp : p.data = [] := by
      simpa using List.eq_nil_of_infix_nil h
    simp [hp]
  · have hmono : t.data <:+: (t ++ "\n" ++ l).data := by
      rw [String.data_append, String.data_append]
      exact ((List.prefix_append t.data _).trans
        (List.prefix_append _ l.data)).isInfix
    exact h.trans hmono

lemma pyContains_detectedLine (t : String) (b : Backend) (p : String) :
    pyContains (appendText t (detectedLine b p)) p = true := by
  rw [pyContains_iff]
  have hline : p.data <:+: (detectedLine b p).data := by
    unfold detectedLine
    rw [String.data_append]
    exact (List.suffix_append _ p.data).isInfix
  unfold appendText
  split
  · exact hline
  · have : (detectedLine b p).data <:+: (t ++ "\n" ++ detectedLine b p).data := by
      rw [String.data_append]
      exact (List.suffix_append _ _).isInfix
    exact hline.trans this

lemma dedupStep_invariant (b : Backend) (acc : List String × String)
    (r : DecodedSymbol) (h1 : acc.1.Nodup)
    (h2 : ∀ p ∈ acc.1, pyContains acc.2 p = true) :
    (dedupStep b acc r).1.Nodup ∧
      ∀ p ∈ (dedupStep b acc r).1, pyContains (dedupStep b acc r).2 p = true := by
  unfold dedupStep
  split
  · exact ⟨h1, h2⟩
  · next hc =>
    refine ⟨?_, ?_⟩
    · rw [List.nodup_append]
      refine ⟨h1, List.nodup_singleton _, ?_⟩
      intro x hx hx1
      rcases List.mem_singleton.mp hx1 with rfl
      exact hc (h2 _ hx)
    · intro p hp
      rcases List.mem_append.mp hp with hp1 | hp1
      · exact pyContains_appendText _ _ _ (h2 p hp1)
      · rcases List.mem_singleton.mp hp1 with rfl
        exact pyContains_detectedLine _ _ _

lemma foldl_dedup_invariant (b : Backend) (batch : List DecodedSymbol)
    (acc : List String × String) (h1 : acc.1.Nodup)
    (h2 : ∀ p ∈ acc.1, pyContains acc.2 p = true) :
    (batch.foldl (dedupStep b) acc).1.Nodup ∧
      ∀ p ∈ (batch.foldl (dedupStep b) acc).1,
        pyContains (batch.foldl (dedupStep b) acc).2 p = true := by
  induction batch generalizing acc with
  | nil => exact ⟨h1, h2⟩
  | cons r rs ih =>
    have hstep := dedupStep_invariant b acc r h1 h2
    exact ih (dedupStep b acc r) hstep.1 hstep.2

lemma foldl_batches_invariant (b : Backend)
    (batches : List (List DecodedSymbol)) (acc : List String × String)
    (h1 : acc.1.Nodup) (h2 : ∀ p ∈ acc.1, pyContains acc.2 p = true) :
    (batches.foldl (fun a batch => batch.foldl (dedupStep b) a) acc).1.Nodup := by
  induction batches generalizing acc with
  | nil => exact h1
  | cons batch rest ih =>
    have hstep := foldl_dedup_invariant b batch acc h1 h2
    exact ih (batch.foldl (dedupStep b) acc) hstep.1 hstep.2

/-- The per-call text evolution in `update_display` ignores the reported
accumulator, so a session of calls evolves the results-box text exactly as
iterated `update_display` does. -/
lemma dedupStep_snd (b : Backend) (acc : List String × String)
    (rep : List String) (r : DecodedSymbol) :
    (dedupStep b acc r).2 = (dedupStep b (rep, acc.2) r).2 := by
  unfold dedupStep
  by_cases h : pyContains acc.2 r.data = true <;> simp [h]

lemma foldl_dedup_snd (b : Backend) (batch : List DecodedSymbol) :
    ∀ (acc : List String × String) (rep : List String),
      (batch.foldl (dedupStep b) acc).2 =
        (batch.foldl (dedupStep b) (rep, acc.2)).2 := by
  induction batch with
  | nil => intro acc rep; rfl
  | cons r rs ih =>
    intro acc rep
    simp only [List.foldl_cons]
    rw [ih (dedupStep b acc r) rep, dedupStep_snd b acc rep r,
      ih (dedupStep b (rep, acc.2) r) rep]

lemma foldl_batches_snd (b : Backend) (batches : List (List DecodedSymbol)) :
    ∀ (acc : List String × String) (rep : List String),
      (batches.foldl (fun a batch => batch.foldl (dedupStep b) a) acc).2 =
        (batches.foldl (fun a batch => batch.foldl (dedupStep b) a) (rep, acc.2)).2 := by
  induction batches with
  | nil => intro acc rep; rfl
  | cons batch rest ih =>
    intro acc rep
    simp only [List.foldl_cons]
    rw [ih (batch.foldl (dedupStep b) acc) rep, foldl_dedup_snd b batch acc rep,
      ih (batch.foldl (dedupStep b) (rep, acc.2)) rep]

lemma sessionRun_resultsText (b : Backend)
    (batches : List (List DecodedSymbol)) (w : WidgetState)
    (hb : w.current_backend = b) :
    (sessionRun b w.resultsText batches).2 =
      (batches.foldl update_display w).resultsText := by
  induction batches generalizing w with
  | nil => rfl
  | cons batch rest ih =>
    simp only [sessionRun, List.foldl_cons]
    have hw : (update_display w batch).resultsText =
        (batch.foldl (dedupStep b) (([] : List String), w.resultsText)).2 := by
      simp [update_display, update_display_run, hb]
    have hrec := ih (update_display w batch) (by simp [update_display, hb])
    simp only [sessionRun] at hrec
    rw [foldl_batches_snd b rest (batch.foldl (dedupStep b) ([], w.resultsText))
      ([] : List String), ← hw]
    exact hrec

/-- C1 (counterexample): the dedup test of `update_display` is substring
containment in the accumulated results text, not payload-set membership.
After reporting payload "AB" (first call), payload "A" has never been
reported — the seen payloads are exactly ["AB"] — yet the second call
reports nothing, because "A" occurs inside the text
"Detected [opencv]: AB"; the spec-worded Deduplicator (`specFilter`) with
seen-set ["AB"] would report "A". -/
theorem C1_counterexample :
    (update_display_run .opencv "" [{ data := "AB", polygon := [] }]).1
        = ["AB"] ∧
    (update_display_run .opencv
        (update_display_run .opencv "" [{ data := "AB", polygon := [] }]).2
        [{ data := "A", polygon := [] }]).1 = [] ∧
    ((specFilter ["AB"] [{ data := "A", polygon := [] }]).1).map
        (fun s => s.data) = ["A"] := by
  refine ⟨?_, ?_, ?_⟩ <;> decide

/-- C1 (amended): within one session, a symbol is reported exactly when
its payload string is not yet a substring of the accumulated results-box
text (so kind and geometry are ignored, but so is the boundary between
payloads: a payload occurring inside an earlier line is suppressed too);
the reported payload's formatted line is then appended to the text.
Consequently, over any sequence of `update_display` calls, each payload
string is reported at most once until the text is cleared. -/
theorem C1_dedup_reported_nodup (b : Backend) (text : String)
    (batches : List (List DecodedSymbol)) :
    (sessionRun b text batches).1.Nodup :=
  foldl_batches_invariant b batches ([], text) List.nodup_nil
    (fun p hp => absurd hp (List.not_mem_nil p))

/-- A detector environment in which no symbol is ever found and no call
raises. -/
def quietEnv : DetectorEnv :=
  { opencvDetect := fun _ => .ok { retval := false, info := [], corners := [] }
    pyzbarDecode := fun _ => .ok [] }

/-- A system with a single open capture handle. -/
def oneCapSys : Sys :=
  { handles := [{ index := 0, opened := true
                  reqWidth := some 1280, reqHeight := some 720 }] }

/-- A scanner mid-`Running`, holding the open handle of `oneCapSys`. -/
def runningScanner : ScannerState :=
  { backend := .opencv, active := true, cap := some 0, timerRunning := true
    errors := [], emitted := [] }

/-- C2 (counterexample): with the session Running and the capture open,
a tick whose `cap.read()` fails emits no error event and leaves the
session Running with its timer armed — the pipeline neither reports the
failure nor auto-stops, contradicting the claimed transition to Idle. -/
theorem C2_counterexample :
    (process_next_frame quietEnv oneCapSys runningScanner none).errors = [] ∧
    (process_next_frame quietEnv oneCapSys runningScanner none).active = true ∧
    (process_next_frame quietEnv oneCapSys runningScanner none).timerRunning
      = true :=
  ⟨rfl, rfl, rfl⟩

/-- C2 (amended): during Running, a failed frame read at a loop tick is
silently swallowed: `process_next_frame` returns with the state entirely
unchanged — no error event, the session stays Running, and the timer keeps
firing, so a dead device is retried indefinitely. -/
theorem C2_read_failure_silent (env : DetectorEnv) (sys : Sys)
    (s : ScannerState) (h1 : s.active = true) (h2 : capOpened sys s = true) :
    process_next_frame env sys s none = s := by
  simp [process_next_frame, h1, h2]

/-- C2 witness: the amended theorem at the concrete Running state. -/
theorem C2_read_failure_silent_witness :
    runningScanner.active = true ∧ capOpened oneCapSys runningScanner = true ∧
      process_next_frame quietEnv oneCapSys runningScanner none
        = runningScanner :=
  ⟨rfl, rfl, C2_read_failure_silent quietEnv oneCapSys runningScanner rfl rfl⟩

lemma openCount_append (l : List CapHandle) (h : CapHandle) :
    openCount { handles := l ++ [h] } =
      openCount { handles := l } + (if h.opened then 1 else 0) := by
  by_cases ho : h.opened <;> simp [openCount, List.filter_append, ho]

lemma getD_opened_lt (l : List CapHandle) (i : Nat)
    (h : (l.getD i defaultHandle).opened = true) : i < l.length := by
  by_contra hlt
  rw [List.getD_eq_default _ _ (Nat.le_of_not_lt hlt)] at h
  exact Bool.false_ne_true h

/-- The widget state of Scenario C just before the backend switch: the
session is running and "HELLO" has already been reported (it sits in the
results box inside its detection line). -/
def wBeforeSwitch : WidgetState :=
  { current_backend := .opencv
    resultsText := "Detected [opencv]: HELLO"
    scanner := runningScanner }

/-- C3 (counterexample): Scenario C on the code.  With "HELLO" already
reported and the session running, `change_backend` to pyzbar leaves the
results box untouched (the dedup state is not reset), and feeding a frame
that decodes "HELLO" again after the switch reports nothing — the payload
is not reported again. -/
theorem C3_counterexample :
    ((change_backend (fun _ => true) oneCapSys wBeforeSwitch .pyzbar).2.resultsText
        = "Detected [opencv]: HELLO") ∧
    (update_display_run
        (change_backend (fun _ => true) oneCapSys wBeforeSwitch
          .pyzbar).2.current_backend
        (change_backend (fun _ => true) oneCapSys wBeforeSwitch
          .pyzbar).2.resultsText
        [{ data := "HELLO", polygon := [] }]).1 = [] := by
  refine ⟨?_, ?_⟩ <;> decide

/-- C3 (amended): a backend switch issued while Running performs exactly
one Frame Source close+reopen cycle — the old handle is released and
exactly one fresh handle is opened — and installs a fresh scanner on the
new backend; but the Deduplicator state is NOT reset: the results-box
text is preserved verbatim, so a payload already present in it is not
reported again after the switch. -/
theorem C3_switch_one_cycle_no_reset (avail : Nat → Bool) (sys : Sys)
    (w : WidgetState) (k : Backend) (i : Nat) (h1 : w.scanner.active = true)
    (h2 : w.scanner.cap = some i)
    (h3 : (sys.handles.getD i defaultHandle).opened = true)
    (h4 : avail 0 = true) :
    change_backend avail sys w k =
      ({ handles :=
          (sys.handles.set i
            { sys.handles.getD i defaultHandle with opened := false }) ++
          [{ index := 0, opened := true
             reqWidth := some 1280, reqHeight := some 720 }] },
       { current_backend := k
         resultsText := w.resultsText
         scanner :=
           { backend := k, active := true, cap := some sys.handles.length
             timerRunning := true, errors := [], emitted := [] } }) := by
  have h3a : (sys.handles[i]?.getD defaultHandle).opened = true := by
    simpa [List.getD] using h3
  simp [change_backend, stop_capture, setup_scanner, start_capture,
    initScanner, h1, h2, h3a, h4, List.length_set, List.getD]

/-- C3 witness: the amended theorem at the Scenario C state. -/
theorem C3_switch_one_cycle_no_reset_witness :
    wBeforeSwitch.scanner.active = true ∧
    wBeforeSwitch.scanner.cap = some 0 ∧
    (oneCapSys.handles.getD 0 defaultHandle).opened = true ∧
    change_backend (fun _ => true) oneCapSys wBeforeSwitch .pyzbar =
      ({ handles :=
          (oneCapSys.handles.set 0
            { oneCapSys.handles.getD 0 defaultHandle with opened := false }) ++
          [{ index := 0, opened := true
             reqWidth := some 1280, reqHeight := some 720 }] },
       { current_backend := .pyzbar
         resultsText := wBeforeSwitch.resultsText
         scanner :=
           { backend := .pyzbar, active := true
             cap := some oneCapSys.handles.length
             timerRunning := true, errors := [], emitted := [] } }) :=
  ⟨rfl, rfl, rfl,
    C3_switch_one_cycle_no_reset (fun _ => true) oneCapSys wBeforeSwitch
      .pyzbar 0 rfl rfl rfl rfl⟩

/-- C4 (counterexample): from a fresh scanner, `start_capture` on an
available device succeeds and the session is Running; a second
`start_capture` issued in that state opens a second device handle, so two
handles are open at once — refuting "at most one open device handle per
session". -/
theorem C4_counterexample :
    (start_capture (fun _ => true) { handles := [] }
        (initScanner .opencv) 0).2.1.active = true ∧
    openCount (start_capture (fun _ => true)
        (start_capture (fun _ => true) { handles := [] }
          (initScanner .opencv) 0).1
        (start_capture (fun _ => true) { handles := [] }
          (initScanner .opencv) 0).2.1 0).1 = 2 := by
  refine ⟨?_, ?_⟩ <;> decide

/-- C4 (amended): calling `start_capture` while already Running does open
a second device handle: the call succeeds, the previously open handle is
dropped without being released and stays open, and the open-handle count
grows by one.  (Only the single `QTimer` loop exists — the timer is merely
restarted — but the device handle is leaked.) -/
theorem C4_second_start_leaks (avail : Nat → Bool) (sys : Sys)
    (s : ScannerState) (idx i : Nat) (h1 : s.active = true)
    (h2 : s.cap = some i)
    (h3 : (sys.handles.getD i defaultHandle).opened = true)
    (h4 : avail idx = true) :
    (start_capture avail sys s idx).2.2 = true ∧
    openCount (start_capture avail sys s idx).1 = openCount sys + 1 ∧
    (((start_capture avail sys s idx).1.handles.getD i defaultHandle).opened
        = true) ∧
    (start_capture avail sys s idx).2.1.active = true := by
  have hlt : i < sys.handles.length := getD_opened_lt _ _ h3
  refine ⟨by simp [start_capture, h4], ?_, ?_, by simp [start_capture, h4]⟩
  · simp [start_capture, h4, openCount_append]
  · simp only [start_capture, h4, if_true]
    rw [List.getD_append _ _ _ _ hlt]
    exact h3

/-- C4 witness: the amended theorem at the state reached by a first
successful start. -/
theorem C4_second_start_leaks_witness :
    runningScanner.active = true ∧
    runningScanner.cap = some 0 ∧
    (oneCapSys.handles.getD 0 defaultHandle).opened = true ∧
    ((start_capture (fun _ => true) oneCapSys runningScanner 0).2.2 = true ∧
     openCount (start_capture (fun _ => true) oneCapSys runningScanner 0).1
        = openCount oneCapSys + 1 ∧
     (((start_capture (fun _ => true) oneCapSys runningScanner
          0).1.handles.getD 0 defaultHandle).opened = true) ∧
     (start_capture (fun _ => true) oneCapSys runningScanner 0).2.1.active
        = true) :=
  ⟨rfl, rfl, rfl,
    C4_second_start_leaks (fun _ => true) oneCapSys runningScanner 0 0
      rfl rfl rfl rfl⟩

/-- C7: when `start_capture` is issued from Idle and the device cannot be
opened, the call emits exactly one `Camera error` event, returns `False`
to the caller (the `IOError` is caught, nothing is raised across the
boundary), the session never enters Running (`active` stays false, the
timer is never started), and no device handle is left open. -/
theorem C7_start_failure_stays_idle (avail : Nat → Bool) (sys : Sys)
    (s : ScannerState) (idx : Nat) (h1 : avail idx = false)
    (h2 : s.active = false) :
    (start_capture avail sys s idx).2.2 = false ∧
    (start_capture avail sys s idx).2.1.active = false ∧
    (start_capture avail sys s idx).2.1.timerRunning = s.timerRunning ∧
    (start_capture avail sys s idx).2.1.errors
        = s.errors ++ ["Camera error: Camera not accessible"] ∧
    openCount (start_capture avail sys s idx).1 = openCount sys := by
  refine ⟨by simp [start_capture, h1], by simp [start_capture, h1, h2],
    by simp [start_capture, h1], by simp [start_capture, h1], ?_⟩
  simp [start_capture, h1, openCount_append]

/-- C7 witness: Scenario D — start on a device index that does not
exist, from a fresh Idle scanner. -/
theorem C7_start_failure_stays_idle_witness :
    ((fun _ : Nat => false) 3 = false) ∧
    (initScanner .opencv).active = false ∧
    ((start_capture (fun _ => false) { handles := [] }
        (initScanner .opencv) 3).2.2 = false ∧
     (start_capture (fun _ => false) { handles := [] }
        (initScanner .opencv) 3).2.1.active = false ∧
     (start_capture (fun _ => false) { handles := [] }
        (initScanner .opencv) 3).2.1.timerRunning
        = (initScanner .opencv).timerRunning ∧
     (start_capture (fun _ => false) { handles := [] }
        (initScanner .opencv) 3).2.1.errors
        = (initScanner .opencv).errors ++
            ["Camera error: Camera not accessible"] ∧
     openCount (start_capture (fun _ => false) { handles := [] }
        (initScanner .opencv) 3).1 = openCount { handles := [] }) :=
  ⟨rfl, rfl,
    C7_start_failure_stays_idle (fun _ => false) { handles := [] }
      (initScanner .opencv) 3 rfl rfl⟩

lemma process_frame_fst (env : DetectorEnv) (b : Backend) (f : Frame) :
    (process_frame env b f).1 = cvFlip f := by
  cases b
  · cases hd : env.opencvDetect (cvFlip f) <;> simp [process_frame, hd]
  · cases hd : env.pyzbarDecode (cvFlip f) <;> simp [process_frame, hd]

lemma process_frame_err (env : DetectorEnv) (b : Backend) (f : Frame) :
    (process_frame env b f).2.2 =
      Option.map (fun e => "Processing error: " ++ e)
        (detectorRaises env b (cvFlip f)) := by
  cases b
  · cases hd : env.opencvDetect (cvFlip f) <;>
      simp [process_frame, detectorRaises, hd]
  · cases hd : env.pyzbarDecode (cvFlip f) <;>
      simp [process_frame, detectorRaises, hd]

lemma process_frame_of_raises (env : DetectorEnv) (b : Backend) (f : Frame)
    (e : String) (h : detectorRaises env b (cvFlip f) = some e) :
    process_frame env b f = (cvFlip f, [], some ("Processing error: " ++ e)) := by
  cases b
  · cases hd : env.opencvDetect (cvFlip f)
    · simp [detectorRaises, hd] at h
      simp [process_frame, hd, h]
    · simp [detectorRaises, hd] at h
  · cases hd : env.pyzbarDecode (cvFlip f)
    · simp [detectorRaises, hd] at h
      simp [process_frame, hd, h]
    · simp [detectorRaises, hd] at h

/-- A detector environment whose opencv backend finds payloads "HELLO"
and "X" in every frame. -/
def helloXEnv : DetectorEnv :=
  { opencvDetect := fun _ => .ok
      { retval := true, info := ["HELLO", "X"]
        corners := [[(0, 0)], [(1, 1)]] }
    pyzbarDecode := fun _ => .ok [] }

/-- A detector environment in which every call raises. -/
def failEnv : DetectorEnv :=
  { opencvDetect := fun _ => .error "boom"
    pyzbarDecode := fun _ => .error "boom" }

/-- A tiny test frame. -/
def testFrame : Frame := { width := 2, height := 1, rows := [[1, 2]] }

/-- A widget whose results box already holds the "HELLO" detection line
and whose scanner is idle. -/
def wStatic : WidgetState :=
  { current_backend := .opencv
    resultsText := "Detected [opencv]: HELLO"
    scanner := initScanner .opencv }

/-- C5 (counterexample): a static-image scan whose decode yields
["HELLO", "X"] against a results box already holding "HELLO" appends only
the "X" line — the one-shot results ARE filtered through the dedup check —
and the resulting text differs from the original — the seen state IS
modified by `decodeOnce`. -/
theorem C5_counterexample :
    (scan_image helloXEnv { handles := [] } wStatic
        (some testFrame)).2.resultsText
      = "Detected [opencv]: HELLO\nDetected [opencv]: X" ∧
    (scan_image helloXEnv { handles := [] } wStatic
        (some testFrame)).2.resultsText ≠ wStatic.resultsText := by
  refine ⟨?_, ?_⟩ <;> decide

/-- C5 (amended): `scan_image` decodes the supplied image synchronously
through the active backend and, when the decode does not raise, leaves
the session state untouched (scanner and device handles unchanged) — but
its results are then pushed through the very same dedup display path as
live frames: they are filtered against the accumulated results text and
the newly reported payloads are appended to it. -/
theorem C5_scan_image_uses_dedup (env : DetectorEnv) (sys : Sys)
    (w : WidgetState) (frame : Frame)
    (h : detectorRaises env w.scanner.backend (cvFlip frame) = none) :
    (scan_image env sys w (some frame)).1 = sys ∧
    (scan_image env sys w (some frame)).2.scanner = w.scanner ∧
    (scan_image env sys w (some frame)).2.resultsText =
      (update_display_run w.current_backend w.resultsText
        (process_frame env w.scanner.backend frame).2.1).2 := by
  have he : (process_frame env w.scanner.backend frame).2.2 = none := by
    rw [process_frame_err, h]
    rfl
  refine ⟨?_, ?_, ?_⟩ <;> simp [scan_image, he, update_display]

/-- C5 witness: the amended theorem at the Scenario-E-style input. -/
theorem C5_scan_image_uses_dedup_witness :
    detectorRaises helloXEnv wStatic.scanner.backend (cvFlip testFrame)
        = none ∧
    ((scan_image helloXEnv { handles := [] } wStatic (some testFrame)).1
        = { handles := [] } ∧
     (scan_image helloXEnv { handles := [] } wStatic
        (some testFrame)).2.scanner = wStatic.scanner ∧
     (scan_image helloXEnv { handles := [] } wStatic
        (some testFrame)).2.resultsText =
       (update_display_run wStatic.current_backend wStatic.resultsText
         (process_frame helloXEnv wStatic.scanner.backend
           testFrame).2.1).2) :=
  ⟨rfl, C5_scan_image_uses_dedup helloXEnv { handles := [] } wStatic
    testFrame rfl⟩

/-- Two distinguishable frames for the channel counterexample. -/
def frameA : Frame := { width := 1, height := 1, rows := [[0]] }

/-- Second distinguishable frame. -/
def frameB : Frame := { width := 1, height := 1, rows := [[7]] }

/-- C6 (counterexample): two frame messages are produced before the
consumer drains; the first consumption observes the OLDER frame, not the
most recent one — the conduit queues instead of overwriting, so stale
frames are delivered. -/
theorem C6_counterexample :
    ((((Channel.mk [] []).emit (.frameMsg frameA [])).emit
        (.frameMsg frameB [])).consume).2 = some (.frameMsg frameA []) ∧
    ChannelMsg.frameMsg frameA [] ≠ ChannelMsg.frameMsg frameB [] := by
  refine ⟨rfl, ?_⟩
  decide

lemma consumeN_spec (pending delivered : List ChannelMsg) :
    Channel.consumeN { pending := pending, delivered := delivered }
        pending.length =
      { pending := [], delivered := delivered ++ pending } := by
  induction pending generalizing delivered with
  | nil => simp [Channel.consumeN]
  | cons m rest ih => simp [Channel.consumeN, Channel.consume, ih]

lemma foldl_emit (msgs : List ChannelMsg) (c : Channel) :
    msgs.foldl Channel.emit c =
      { pending := c.pending ++ msgs, delivered := c.delivered } := by
  induction msgs generalizing c with
  | nil => simp
  | cons m rest ih => simp [Channel.emit, ih]

/-- C6 (amended): the worker-to-consumer conduit is a FIFO queue, not a
single overwrite slot: emitting posts at the back, consuming takes the
oldest pending message, and draining after N productions delivers every
message — frames and errors alike — exactly once, in production order; in
particular older unconsumed frames are delivered, not replaced. -/
theorem C6_channel_is_queue (msgs : List ChannelMsg) :
    Channel.consumeN
        (msgs.foldl Channel.emit { pending := [], delivered := [] })
        msgs.length =
      { pending := [], delivered := msgs } := by
  rw [foldl_emit]
  simpa using consumeN_spec msgs []

/-- A second running scanner with a different history (an error already
emitted, a frame already delivered) but the same backend. -/
def runningScannerB : ScannerState :=
  { backend := .opencv, active := true, cap := some 0, timerRunning := true
    errors := ["Processing error: boom"], emitted := [(frameA, [])] }

/-- C8: decoding is a pure function of the frame bytes and the fixed
backend.  Two live-loop ticks fed the identical frame, from sessions with
arbitrary (possibly different) histories but the same backend, emit the
identical (processed frame, symbols) message. -/
theorem C8_decode_pure (env : DetectorEnv) (sys1 sys2 : Sys)
    (s1 s2 : ScannerState) (f : Frame)
    (h1 : s1.active = true) (h2 : capOpened sys1 s1 = true)
    (h3 : s2.active = true) (h4 : capOpened sys2 s2 = true)
    (h5 : s1.backend = s2.backend) :
    (process_next_frame env sys1 s1 (some f)).emitted.drop
        s1.emitted.length =
      (process_next_frame env sys2 s2 (some f)).emitted.drop
        s2.emitted.length := by
  simp only [process_next_frame, h1, h2, h3, h4, Bool.not_true,
    Bool.false_or, Bool.or_self, if_false]
  rw [h5]
  cases hr : (process_frame env s2.backend (cvResize f 640 480)).2.2 <;>
    simp [hr, List.drop_left]

/-- C8 witness: the purity theorem across two concrete sessions with
different histories. -/
theorem C8_decode_pure_witness :
    runningScanner.active = true ∧
    capOpened oneCapSys runningScanner = true ∧
    runningScannerB.active = true ∧
    capOpened oneCapSys runningScannerB = true ∧
    runningScanner.backend = runningScannerB.backend ∧
    (process_next_frame quietEnv oneCapSys runningScanner
        (some testFrame)).emitted.drop runningScanner.emitted.length =
      (process_next_frame quietEnv oneCapSys runningScannerB
        (some testFrame)).emitted.drop runningScannerB.emitted.length :=
  ⟨rfl, rfl, rfl, rfl, rfl,
    C8_decode_pure quietEnv oneCapSys oneCapSys runningScanner
      runningScannerB testFrame rfl rfl rfl rfl rfl⟩

/-- C9: a decode fault never propagates out of `process_frame`: the tick
catches it, emits exactly one `Processing error` event, still delivers
the mirrored frame paired with an empty symbol list, and leaves the
session Running with the timer armed — the capture loop keeps going. -/
theorem C9_decode_fault_contained (env : DetectorEnv) (sys : Sys)
    (s : ScannerState) (f : Frame) (e : String)
    (h1 : s.active = true) (h2 : capOpened sys s = true)
    (h3 : detectorRaises env s.backend (cvFlip (cvResize f 640 480))
        = some e) :
    process_next_frame env sys s (some f) =
      { s with errors := s.errors ++ ["Processing error: " ++ e]
               emitted := s.emitted ++ [(cvFlip (cvResize f 640 480), [])] } ∧
    (process_next_frame env sys s (some f)).active = true ∧
    (process_next_frame env sys s (some f)).timerRunning = s.timerRunning := by
  have hp := process_frame_of_raises env s.backend (cvResize f 640 480) e h3
  have hmain : process_next_frame env sys s (some f) =
      { s with errors := s.errors ++ ["Processing error: " ++ e]
               emitted := s.emitted ++ [(cvFlip (cvResize f 640 480), [])] } := by
    simp [process_next_frame, h1, h2, hp]
  exact ⟨hmain, by rw [hmain]; exact h1, by rw [hmain]⟩

/-- C9 witness: the containment theorem at a concrete raising detector. -/
theorem C9_decode_fault_contained_witness :
    runningScanner.active = true ∧
    capOpened oneCapSys runningScanner = true ∧
    detectorRaises failEnv runningScanner.backend
        (cvFlip (cvResize testFrame 640 480)) = some "boom" ∧
    process_next_frame failEnv oneCapSys runningScanner (some testFrame) =
      { runningScanner with
          errors := runningScanner.errors ++ ["Processing error: boom"]
          emitted := runningScanner.emitted ++
            [(cvFlip (cvResize testFrame 640 480), [])] } :=
  ⟨rfl, rfl, rfl,
    (C9_decode_fault_contained failEnv oneCapSys runningScanner testFrame
      "boom" rfl rfl rfl).1⟩

/-- C10: resolution invariants of the live path.  On every successful
`start_capture` the device is configured to 1280x720 — the call takes no
consumer-chosen resolution at all — and every (frame, symbols) message a
tick delivers carries a frame of exactly 640x480, whatever size the
device produced. -/
theorem C10_resolution (avail : Nat → Bool) (sys : Sys) (s : ScannerState)
    (idx : Nat) (env : DetectorEnv) (sys2 : Sys) (s2 : ScannerState)
    (f : Frame) (h1 : avail idx = true) (h2 : s2.active = true)
    (h3 : capOpened sys2 s2 = true) :
    ((start_capture avail sys s idx).1.handles.getLast?).map
        (fun h => (h.reqWidth, h.reqHeight)) = some (some 1280, some 720) ∧
    ∀ p ∈ (process_next_frame env sys2 s2 (some f)).emitted.drop
        s2.emitted.length, p.1.width = 640 ∧ p.1.height = 480 := by
  constructor
  · simp [start_capture, h1]
  · intro p hp
    simp only [process_next_frame, h2, h3] at hp
    cases hr : (process_frame env s2.backend (cvResize f 640 480)).2.2 <;>
      simp [hr, List.drop_left] at hp <;>
      subst hp <;>
      simp [process_frame_fst, cvFlip, cvResize]

/-- C10 witness: the resolution theorem at concrete inputs. -/
theorem C10_resolution_witness :
    ((fun _ : Nat => true) 0 = true) ∧
    runningScanner.active = true ∧
    capOpened oneCapSys runningScanner = true ∧
    (((start_capture (fun _ => true) { handles := [] }
          (initScanner .opencv) 0).1.handles.getLast?).map
        (fun h => (h.reqWidth, h.reqHeight)) = some (some 1280, some 720) ∧
     ∀ p ∈ (process_next_frame quietEnv oneCapSys runningScanner
          (some testFrame)).emitted.drop runningScanner.emitted.length,
        p.1.width = 640 ∧ p.1.height = 480) :=
  ⟨rfl, rfl, rfl,
    C10_resolution (fun _ => true) { handles := [] } (initScanner .opencv)
      0 quietEnv oneCapSys runningScanner testFrame rfl rfl rfl⟩

end BScanner
